import Mathlib

/-!
# KL25Z clock-tree setup: `SystemInit`

Verification development for `src/system/system_kl25z.cpp`.

The translation unit consists of a header comment and one function:

```
extern "C" void SystemInit(void) {
   return;
}
```

The function is embedded as a state transformer over an explicit machine
state.  The state carries everything the header comment talks about (the
watchdog registers, the MCG and OSC register banks, `SIM_CLKDIV1`, the CMSIS
global `SystemCoreClock`) together with the core registers and the memory, so
that frame properties of the routine can be stated.
-/

namespace KL25Z

/-! ## Machine state -/

/-- Machine state as observed by the caller of a C routine on the KL25Z.
All registers and memory cells hold unsigned machine words, kept as `Nat`.
The routine under study performs no arithmetic, so no wrap-around occurs. -/
structure Machine where
  /-- Core registers r0..r12, sp, lr, pc, as seen by the caller around a call. -/
  core : Fin 16 → Nat
  /-- Program status register. -/
  xpsr : Nat
  /-- Watchdog status and control register high (holds the enable bit). -/
  WDOG_STCTRLH : Nat
  /-- Values written to the watchdog unlock register so far, oldest first. -/
  WDOG_UNLOCK : List Nat
  /-- Register bank of the Multipurpose Clock Generator, indexed by offset. -/
  MCG : Nat → Nat
  /-- Register bank of the oscillator module, indexed by offset. -/
  OSC : Nat → Nat
  /-- System clock divider register 1 of the System Integration Module. -/
  SIM_CLKDIV1 : Nat
  /-- Byte-addressed memory (RAM, flash, remaining memory-mapped devices). -/
  mem : Nat → Nat
  /-- The CMSIS global variable holding the core clock frequency in Hz. -/
  SystemCoreClock : Nat

/-- Abnormal outcomes a routine could have on this target. -/
inductive Fault where
  | hardFault
  | watchdogReset
  | clockLoss
  deriving DecidableEq, Repr

/-- Result of running a `void` routine: a fault, or unit with the final state. -/
abbrev Exec := Except Fault (Unit × Machine)

/-! ## The routine -/

/-- Embedding of `extern "C" void SystemInit(void) { return; }`.
The body is the single statement `return;`: control goes back to the caller
with the state it was entered with. -/
def SystemInit (s : Machine) : Exec :=
  Except.ok ((), s)

/-- Final state of a run, when the run succeeded. -/
def Exec.final? : Exec → Option Machine
  | Except.ok (_, s) => some s
  | Except.error _ => none

/-- Running `SystemInit` `n` times in sequence; a fault aborts the sequence. -/
def SystemInit_times : Nat → Machine → Exec
  | 0, s => Except.ok ((), s)
  | n + 1, s =>
    match SystemInit s with
    | Except.ok (_, s1) => SystemInit_times n s1
    | Except.error e => Except.error e

/-! ## Control flow of the body as a step function -/

/-- Program points of the body of `SystemInit`: in front of the `return;`
statement, and back in the caller. -/
inductive Ctrl where
  | atReturn
  | returned
  deriving DecidableEq, Repr

/-- A configuration: a program point and a machine state. -/
structure Config where
  ctrl : Ctrl
  state : Machine

/-- Configuration on entry to `SystemInit`. -/
def SystemInit_entry (s : Machine) : Config :=
  ⟨Ctrl.atReturn, s⟩

/-- One step of the body.  The only statement is `return;`, which moves
control to the caller and leaves the state alone.  Once returned, the body
has nothing more to do. -/
def SystemInit_step : Config → Config
  | ⟨Ctrl.atReturn, s⟩ => ⟨Ctrl.returned, s⟩
  | ⟨Ctrl.returned, s⟩ => ⟨Ctrl.returned, s⟩

/-- Run the body for at most `fuel` steps.  Gives the number of steps taken
and the final state once control is back in the caller, and `none` when the
fuel runs out first. -/
def SystemInit_run : Nat → Config → Option (Nat × Machine)
  | _, ⟨Ctrl.returned, s⟩ => some (0, s)
  | 0, ⟨Ctrl.atReturn, _⟩ => none
  | fuel + 1, ⟨Ctrl.atReturn, s⟩ =>
    (SystemInit_run fuel (SystemInit_step ⟨Ctrl.atReturn, s⟩)).map
      (fun r => (r.1 + 1, r.2))

/-! ## Predicates for the steps listed in the header comment -/

/-- The watchdog enable bit of `WDOG_STCTRLH` is set.  The bit mask is not
defined in the source file and is taken as a parameter. -/
def wdogEnabled (enableMask : Nat) (s : Machine) : Bool :=
  (s.WDOG_STCTRLH &&& enableMask) != 0

/-- The unlock sequence (the given key values, in order) has been written to
`WDOG_UNLOCK`.  The key values are not defined in the source file and are
taken as a parameter. -/
def wdogUnlockPerformed (keys : List Nat) (s : Machine) : Bool :=
  s.WDOG_UNLOCK.tails.any (fun t => keys.isPrefixOf t)

/-- The watchdog has been disabled: unlock sequence written, enable bit clear. -/
def wdogDisabled (enableMask : Nat) (keys : List Nat) (s : Machine) : Bool :=
  wdogUnlockPerformed keys s && !wdogEnabled enableMask s

/-- The global `SystemCoreClock` holds the core clock frequency.  The function
giving the core frequency of a clock-tree configuration is not part of the
source file and is taken as a parameter. -/
def coreClockUpdated (coreHz : Machine → Nat) (s : Machine) : Prop :=
  s.SystemCoreClock = coreHz s

/-! ## Concrete states -/

/-- A state right after reset in which the watchdog is running: every
register and memory cell is zero except `WDOG_STCTRLH`, whose enable bit
(bit 0) is set, and no write to `WDOG_UNLOCK` has happened.  The global
`SystemCoreClock` is still zero. -/
def resetState : Machine where
  core := fun _ => 0
  xpsr := 0
  WDOG_STCTRLH := 0x01D3
  WDOG_UNLOCK := []
  MCG := fun _ => 0
  OSC := fun _ => 0
  SIM_CLKDIV1 := 0
  mem := fun _ => 0
  SystemCoreClock := 0

/-! ## Shared lemmas -/

theorem SystemInit_eq (s : Machine) : SystemInit s = Except.ok ((), s) := rfl

theorem SystemInit_times_eq (n : Nat) (s : Machine) :
    SystemInit_times n s = Except.ok ((), s) := by
  induction n with
  | zero => rfl
  | succ k ih => simpa [SystemInit_times, SystemInit] using ih

theorem SystemInit_run_succ (fuel : Nat) (s : Machine) :
    SystemInit_run (fuel + 1) (SystemInit_entry s) = some (1, s) := by
  cases fuel <;> rfl

/-! ## Claims -/

/-- C1: for every machine state `s`, invoking `SystemInit` on `s` returns
with the state equal to `s`: the routine alters no processor register, no
peripheral register, no memory cell and no global. -/
theorem SystemInit_state_unchanged (s : Machine) :
    SystemInit s = Except.ok ((), s) ∧ (SystemInit s).final? = some s :=
  ⟨rfl, rfl⟩

/-- C2: for every machine state, the value of the global `SystemCoreClock`
after `SystemInit` equals its value before the call. -/
theorem SystemInit_preserves_SystemCoreClock (s : Machine) :
    ((SystemInit s).final?.map Machine.SystemCoreClock) = some s.SystemCoreClock := by
  rfl

/-- C3: for every machine state `SystemInit` terminates.  From the entry
configuration the single step taken is the `return;`, which reaches the
caller whatever the state is; any positive amount of fuel suffices, the run
takes exactly one step for every state, and its final state is the one the
function `SystemInit` yields. -/
theorem SystemInit_terminates (s : Machine) (fuel : Nat) :
    (SystemInit_step (SystemInit_entry s)).ctrl = Ctrl.returned ∧
    SystemInit_run (fuel + 1) (SystemInit_entry s) = some (1, s) ∧
    (SystemInit_run (fuel + 1) (SystemInit_entry s)).map Prod.snd
      = (SystemInit s).final? := by
  refine ⟨rfl, SystemInit_run_succ fuel s, ?_⟩
  rw [SystemInit_run_succ]
  rfl

/-- C4: `SystemInit` cannot fail: for every machine state its result is the
success value (unit, with some final state) and it is no fault. -/
theorem SystemInit_never_fails (s : Machine) :
    (∃ s1, SystemInit s = Except.ok ((), s1)) ∧
    (∀ e : Fault, SystemInit s ≠ Except.error e) := by
  refine ⟨⟨s, rfl⟩, ?_⟩
  intro e h
  rw [SystemInit_eq] at h
  cases h

/-- C5 (evaluation at the failing input): started in `resetState`, where
`SystemCoreClock` is 0, `SystemInit` leaves `SystemCoreClock` at 0.  So for
every core-frequency function the variable holds the core frequency afterwards
only if that frequency is 0 Hz; it has not been updated. -/
theorem SystemInit_does_not_update_SystemCoreClock :
    ∃ s1, SystemInit resetState = Except.ok ((), s1) ∧
      s1.SystemCoreClock = 0 ∧
      ∀ coreHz : Machine → Nat, coreClockUpdated coreHz s1 ↔ coreHz s1 = 0 := by
  refine ⟨resetState, rfl, rfl, ?_⟩
  intro coreHz
  unfold coreClockUpdated
  constructor
  · intro h
    rw [← h]
    rfl
  · intro h
    rw [h]
    rfl

/-- C6 (evaluation at the failing input): started in `resetState`, where the
watchdog enable bit (mask 1) is set, `SystemInit` returns with the enable bit
still set and with no write to `WDOG_UNLOCK`, so for every non-empty key
sequence the watchdog has not been disabled. -/
theorem SystemInit_does_not_disable_watchdog :
    wdogEnabled 1 resetState = true ∧
    ∃ s1, SystemInit resetState = Except.ok ((), s1) ∧
      wdogEnabled 1 s1 = true ∧
      s1.WDOG_UNLOCK = [] ∧
      ∀ keys : List Nat, wdogDisabled 1 keys s1 = false := by
  refine ⟨by decide, resetState, rfl, by decide, rfl, ?_⟩
  intro keys
  have h : wdogEnabled 1 resetState = true := by decide
  simp [wdogDisabled, h]

/-- C7: `SystemInit` is idempotent: for every machine state `s` and every
`n ≥ 0`, running `SystemInit` `n` times in sequence from `s` gives the same
result as running it once. -/
theorem SystemInit_idempotent (s : Machine) (n : Nat) :
    SystemInit_times n s = SystemInit_times 1 s := by
  rw [SystemInit_times_eq, SystemInit_times_eq]

end KL25Z
